import Mathlib

/-
  Verification of the golem dialog state-machine engine
  (golem/core/dialog_manager.py) against its specification.

  The `DialogManager` class is translated from dialog_manager.py.
  The `Context`, `Flow` and `State` classes live in repository modules
  that only the dialog manager imports; their behaviour is modelled
  from the specification, as marked on each definition.

  External collaborators (redis, the chat interface, celery tasks,
  the python logger) are modelled as follows: the redis store is an
  explicit `DB` value threaded through every operation; outbound
  messages and executed actions are collected in result records;
  logging and interface notifications that carry no engine state are
  dropped.
-/

namespace Golem

/-- Association-list update, modelling `redis.hset` for one hash key. -/
def hset {α : Type} (l : List (String × α)) (k : String) (v : α) : List (String × α) :=
  (k, v) :: l.filter (fun p => !(p.1 == k))

/-- Association-list lookup, modelling `redis.hget` for one hash key. -/
def hget {α : Type} (l : List (String × α)) (k : String) : Option α :=
  (l.find? (fun p => p.1 == k)).map (fun p => p.2)

/-- Characters strictly before the first occurrence of `c`
(the whole list when `c` is absent). -/
def takeUntilChar (c : Char) : List Char → List Char
  | [] => []
  | x :: xs => if x == c then [] else x :: takeUntilChar c xs

/-- Characters strictly after the first occurrence of `c`
(empty when `c` is absent). -/
def dropThroughChar (c : Char) : List Char → List Char
  | [] => []
  | x :: xs => if x == c then xs else dropThroughChar c xs

/-- Whether `c` occurs in the list. -/
def hasChar (c : Char) : List Char → Bool
  | [] => false
  | x :: xs => x == c || hasChar c xs

/-- Python `new_state_name.split(':', 1)` when a colon is present
(dialog_manager.py lines 241-242): the part before the first colon is the
state name, the part after it is the requested action variant. -/
def splitActionSuffix (s : String) : String × Option String :=
  if hasChar ':' s.data then
    (⟨takeUntilChar ':' s.data⟩, some ⟨dropThroughChar ':' s.data⟩)
  else (s, none)

/-- Flow-qualification of a state name (dialog_manager.py lines 243-244):
a name without a dot is prefixed with the current flow,
`current.split('.')[0] + '.' + name`. -/
def qualify (current target : String) : String :=
  if hasChar '.' target.data then target
  else (⟨takeUntilChar '.' current.data⟩ : String) ++ "." ++ target

/-- The flow part of a qualified state name, `name.split('.', 1)[0]`. -/
def flowOf (s : String) : String := ⟨takeUntilChar '.' s.data⟩

/-- The local state part of a qualified state name, `name.split('.', 1)[1]`. -/
def stateOf (s : String) : String := ⟨dropThroughChar '.' s.data⟩

/-- A state (or requirement remediation) action.  Actions are repository
flow code external to the engine; the spec describes them as units of
behaviour producing outbound messages and possibly raising.  `raises`
models an action that raises an exception when invoked; a raising action
is modelled as sending no messages of its own. -/
structure Action where
  id : String
  raises : Bool
  msgs : List String
  deriving Repr, DecidableEq

/-- Modelled from the spec: the per-session Context
(class `Context` of golem/core/context.py, not under src/).
`entities` maps an entity name to (value, age); `history` keeps the
names of visited states, most recent last.  `debug_raises` models
whether the diagnostic snapshot `context.debug()` raises when the
exception handler of `move_to` calls it (dialog_manager.py line 281). -/
structure Context where
  counter : Nat
  entities : List (String × String × Nat)
  history : List String
  debug_raises : Bool
  deriving Repr, DecidableEq

/-- The empty Context of a fresh session. -/
def Context.empty : Context :=
  { counter := 0, entities := [], history := [], debug_raises := false }

/-- Modelled from the spec: `context.get(name, max_age)` returns the
entity value only if its age is at most `max_age`. -/
def Context.get (c : Context) (name : String) (max_age : Nat) : Option String :=
  match c.entities.find? (fun e => e.1 == name) with
  | some e => if e.2.2 ≤ max_age then some e.2.1 else none
  | none => none

/-- Modelled from the spec: an entity lookup with no age bound
(`context.intent.get()` and similar accessors). -/
def Context.getAny (c : Context) (name : String) : Option String :=
  (c.entities.find? (fun e => e.1 == name)).map (fun e => e.2.1)

/-- Modelled from the spec: `context.get_age(name)` returns the
entity value together with its age. -/
def Context.get_age (c : Context) (name : String) : Option (String × Nat) :=
  (c.entities.find? (fun e => e.1 == name)).map (fun e => e.2)

/-- Modelled from the spec: `context.add_entities(entities)` merges the
turn's extracted entities; a newly arrived entity is stored with age 0
and every previously existing entity not in this turn's set ages by 1. -/
def Context.add_entities (c : Context) (new : List (String × String)) : Context :=
  { c with entities :=
      new.map (fun kv => (kv.1, kv.2, 0)) ++
        ((c.entities.filter
            (fun e => !(new.any (fun kv => kv.1 == e.1)))).map
          (fun e => (e.1, e.2.1, e.2.2 + 1))) }

/-- Modelled from the spec: `context.add_state(name)` appends a visited
state to the history (timestamps carry no engine behaviour and are
dropped). -/
def Context.add_state (c : Context) (name : String) : Context :=
  { c with history := c.history ++ [name] }

/-- Modelled from the spec: `context.get_history_state(i)` returns the
history entry `i + 1` places from the end (offset 0 is the most recent
entry), `None` when the offset is out of range. -/
def Context.get_history_state (c : Context) (i : Int) : Option String :=
  if 0 ≤ i then c.history.reverse.get? i.toNat else none

/-- Modelled from the spec: a state requirement — a pure predicate over
the Context together with a remediation action. -/
structure Requirement where
  cond : Context → Bool
  action : Action

/-- Modelled from the spec: a conversation state
(class `State` of golem/core/flow.py, not under src/): a local name, an
optional action, an ordered list of requirements, the set of entity
names it accepts while active, and an optional intent it accepts. -/
structure State where
  name : String
  action : Option Action
  requirements : List Requirement
  accepts : List String
  intent : Option String

/-- Modelled from the spec: `state.check_requirements()` holds when
every requirement's predicate is satisfied by the Context. -/
def State.check_requirements (st : State) (c : Context) : Bool :=
  st.requirements.all (fun r => r.cond c)

/-- Modelled from the spec: `state.get_first_requirement()` returns the
first unmet requirement in declared order. -/
def State.get_first_requirement (st : State) (c : Context) : Option Requirement :=
  st.requirements.find? (fun r => !(r.cond c))

/-- Modelled from the spec: `state.accepts_message(keys)` holds when the
state declares that it accepts at least one of the newly arrived entity
keys. -/
def State.accepts_message (st : State) (keys : List String) : Bool :=
  keys.any (fun k => st.accepts.contains k)

/-- Modelled from the spec: a Flow
(class `Flow` of golem/core/flow.py, not under src/): a name, states
keyed by local name, and the list of intents the flow declares itself
able to handle. -/
structure Flow where
  name : String
  states : List (String × State)
  intents : List String

/-- Modelled from the spec: `flow.get_state(state_name)`. -/
def Flow.get_state (f : Flow) (sname : String) : Option State :=
  hget f.states sname

/-- Modelled from the spec: `flow.get_state_for_intent(intent)` returns
the qualified name of the first state of the flow accepting the intent. -/
def Flow.get_state_for_intent (f : Flow) (intent : String) : Option String :=
  (f.states.find? (fun p => p.2.intent == some intent)).map
    (fun p => f.name ++ "." ++ p.1)

/-- Modelled from the spec: `flow.matches_intent(intent)` holds when the
flow's declared intent set contains the intent. -/
def Flow.matches_intent (f : Flow) (intent : String) : Bool :=
  f.intents.contains intent

/-- The redis store as seen by the dialog manager: the `dialog_version`
key and the per-chat-id hashes written by `save_state` and
`save_inactivity_callback`.  The context blob is stored as a structured
value (JSON serialisation carries no engine behaviour). -/
structure DB where
  dialog_version : Option String
  session_state : List (String × String)
  session_context : List (String × Context)
  session_interface : List (String × String)
  session_active : List String
  deriving Repr, DecidableEq

/-- The empty store. -/
def DB.empty : DB :=
  { dialog_version := none, session_state := [], session_context := [],
    session_interface := [], session_active := [] }

/-- The dialog manager (dialog_manager.py lines 22-57): the flow
registry, the current state pointer, the session Context, the session
identity and the configured error message. -/
structure DialogManager where
  flows : List Flow
  current_state_name : String
  context : Context
  chat_id : String
  interface_name : String
  error_message_text : String

/-- Python `DialogManager.version` (dialog_manager.py line 23). -/
def dialogVersion : String := "1.32"

/-- Python `get_flow(flow_name)` (dialog_manager.py lines 222-225). -/
def DialogManager.get_flow (dm : DialogManager) (fname : String) : Option Flow :=
  dm.flows.find? (fun f => f.name == fname)

/-- Python `get_state(flow_state_name)` (dialog_manager.py lines 227-230):
splits the qualified name at the first dot and looks the state up in
its flow.  A name without a dot never resolves (the python code would
raise on it; every call site passes a qualified name). -/
def DialogManager.get_state (dm : DialogManager) (full : String) : Option State :=
  if hasChar '.' full.data then
    (dm.get_flow (flowOf full)).bind (fun f => f.get_state (stateOf full))
  else none

/-- Python `save_state` (dialog_manager.py lines 291-303): writes the current
state name, the context blob, the interface name and the engine version
to the store.  The raw chat-session blob write carries no engine state
and is dropped. -/
def DialogManager.save_state (dm : DialogManager) (db : DB) : DB :=
  { dialog_version := some dialogVersion,
    session_state := hset db.session_state dm.chat_id dm.current_state_name,
    session_context := hset db.session_context dm.chat_id dm.context,
    session_interface := hset db.session_interface dm.chat_id dm.interface_name,
    session_active := db.session_active }

/-- The two shapes `move_to` accepts (dialog_manager.py lines 232-238):
a state name, an integer meaning "go back N steps in history", or
python `None` (absent `_state` entity). -/
inductive MoveTarget
  | byName (s : String)
  | back (n : Int)
  | noTarget

/-- Raw target resolution (dialog_manager.py lines 235-238): an integer
target is resolved through the history with offset `n - 1`. -/
def DialogManager.resolve_raw (dm : DialogManager) : MoveTarget → Option String
  | MoveTarget.byName s => some s
  | MoveTarget.back n => dm.context.get_history_state (n - 1)
  | MoveTarget.noTarget => none

/-- Name resolution of `move_to` (dialog_manager.py lines 241-244):
strip a `:action` suffix, then flow-qualify. -/
def resolve_name (current raw : String) : String :=
  qualify current (splitActionSuffix raw).1

/-- Invoking one action: the trace of invoked actions, whether the
invocation raised, and the messages it sent (a raising action is
modelled as sending none). -/
def execAction (a : Action) : List Action × Bool × List String :=
  ([a], a.raises, if a.raises then [] else a.msgs)

/-- Python `run_accept` (dialog_manager.py lines 170-176): run the action of
the given state; a state without an action only logs a warning. -/
def runAccept (st : State) : List Action × Bool × List String :=
  match st.action with
  | some a => execAction a
  | none => ([], false, [])

/-- Result of `move_to`: the updated manager and store, the messages
sent, the actions invoked, the diagnostic log entries, and the boolean
the python method returns. -/
structure MoveRes where
  dm : DialogManager
  db : DB
  sent : List String
  ran : List Action
  log : List String
  ok : Bool

/-- Python `move_to` (dialog_manager.py lines 232-289).  Steps: resolve the
target (integer targets through the history, `None` falling back to the
current state, `:action` suffix stripped, flow prefix added); fail
without any change when the resolved state does not exist; append the
resolved name to the history unless initializing or an identical
no-forced-re-entry move; return `False` on an identical move; otherwise
advance the pointer and, when not initializing, run the
requirement-gated action under the exception handler of lines 264-286
(the diagnostic snapshot is itself guarded, and the fixed apology
message is sent on failure); finally `save_state`.  The
`interface.state_change` notification and test-recorder call carry no
engine state and are dropped.  In the python code `save_state` is a
no-op during `__init__` because `self.context` is still `None` there;
`dm_init` below inlines that call path, so this definition is only ever
applied with `initializing = false`. -/
def DialogManager.move_to (dm : DialogManager) (db : DB) (target : MoveTarget)
    (initializing save_identical : Bool) : MoveRes :=
  let raw := (dm.resolve_raw target).getD dm.current_state_name
  let name := resolve_name dm.current_state_name raw
  match dm.get_state name with
  | none =>
      { dm := dm, db := db, sent := [], ran := [],
        log := ["Error: State does not exist", name], ok := false }
  | some st =>
      let identical := name == dm.current_state_name
      let ctx1 := if !initializing && (!identical || save_identical)
                  then dm.context.add_state name else dm.context
      let dm1 : DialogManager := { dm with context := ctx1 }
      if identical then
        { dm := dm1, db := db, sent := [], ran := [], log := [], ok := false }
      else
        let previous := dm.current_state_name
        let dm2 : DialogManager := { dm1 with current_state_name := name }
        if initializing then
          { dm := dm2, db := dm2.save_state db, sent := [], ran := [],
            log := [], ok := true }
        else
          let acted : List Action × Bool × List String :=
            if previous == name then ([], false, [])
            else if st.check_requirements dm2.context then runAccept st
            else
              match st.get_first_requirement dm2.context with
              | some req => execAction req.action
              | none => ([], false, [])
          let raised := acted.2.1
          let logL : List String :=
            if raised then
              ["Exception occurred while running action", previous, name,
                dm.chat_id] ++
                (if dm2.context.debug_raises then [] else ["Context snapshot"])
            else []
          let sent := if raised then [dm.error_message_text] else acted.2.2
          { dm := dm2, db := dm2.save_state db, sent := sent, ran := acted.1,
            log := logL, ok := true }

/-- Python `check_state_transition` (dialog_manager.py lines 191-193): probe
the `_state` entity at `max_age = 0` and hand the result to `move_to`. -/
def DialogManager.check_state_transition (dm : DialogManager) (db : DB) : MoveRes :=
  match dm.context.get "_state" 0 with
  | some s => dm.move_to db (MoveTarget.byName s) false false
  | none => dm.move_to db MoveTarget.noTarget false false

/-- Python `check_intent_transition` (dialog_manager.py lines 195-220): when an
intent entity is present, ask the current flow for a state accepting
it, else scan all flows for one declaring the intent and target its
root; move there, or report no transition when no flow matches. -/
def DialogManager.check_intent_transition (dm : DialogManager) (db : DB) : MoveRes :=
  match dm.context.getAny "intent" with
  | none => { dm := dm, db := db, sent := [], ran := [], log := [], ok := false }
  | some intent =>
      let fromFlow :=
        (dm.get_flow (flowOf dm.current_state_name)).bind
          (fun f => f.get_state_for_intent intent)
      let target :=
        match fromFlow with
        | some n => some n
        | none =>
            (dm.flows.find? (fun f => f.matches_intent intent)).map
              (fun f => f.name ++ ".root")
      match target with
      | none =>
          { dm := dm, db := db, sent := [], ran := [],
            log := ["Error! Found intent but no flow present for it!"], ok := false }
      | some n => dm.move_to db (MoveTarget.byName n) false false

/-- The Context of this turn after the counter increment and entity
merge (dialog_manager.py lines 98-100). -/
def DialogManager.turn_context (dm : DialogManager)
    (entities : List (String × String)) : Context :=
  ({ dm.context with counter := dm.context.counter + 1 }).add_entities entities

/-- Python `test_record_message` fires its short-circuit exactly when the
`test_record` entity is present at age 0 (dialog_manager.py lines
151-164). -/
def test_record_active (c : Context) : Bool :=
  match c.get_age "test_record" with
  | some p => p.2 == 0
  | none => false

/-- The recorder response sent by the `test_record` short-circuit
(dialog_manager.py lines 156-162).  The start/stop texts come from the
test recorder, which is external to the engine; they are opaque here. -/
def test_record_response (c : Context) : String :=
  match c.getAny "test_record" with
  | some v =>
      if v == "start" then "record started"
      else if v == "stop" then "record stopped"
      else "Use /test_record/start/ or /test_record/stop/"
  | none => ""

/-- Python `save_inactivity_callback` (dialog_manager.py lines 142-149): the
only store effect is marking the session active; the scheduled celery
callbacks are external side effects and are dropped. -/
def DialogManager.save_inactivity (dm : DialogManager) (db : DB) : DB :=
  { db with session_active :=
      dm.chat_id :: db.session_active.filter (fun k => !(k == dm.chat_id)) }

/-- Result of one `process` turn.  `crashed` records an exception that
`process` does not catch (the in-place acceptance action raising at
line 114, or the current state missing from the registry at line 113),
which in python propagates out of `process`; the fields then hold the
values at the point the exception was raised. -/
structure ProcRes where
  dm : DialogManager
  db : DB
  sent : List String
  ran : List Action
  crashed : Bool

/-- The transition chain of `process` (dialog_manager.py lines 110-118):
explicit `_state` override first, else intent transition, else in-place
acceptance when the current state accepts one of the newly arrived
entity keys (running its action directly, outside any exception
handler), else the fallback `move_by_entities`, which is
`move_to('default.root')` (line 83) followed by `save_state`. -/
def resolverChain (dm : DialogManager) (db : DB) (keys : List String) : ProcRes :=
  let r1 := dm.check_state_transition db
  if r1.ok then
    { dm := r1.dm, db := r1.db, sent := r1.sent, ran := r1.ran, crashed := false }
  else
    let r2 := r1.dm.check_intent_transition r1.db
    if r2.ok then
      { dm := r2.dm, db := r2.db, sent := r2.sent, ran := r2.ran, crashed := false }
    else
      match r2.dm.get_state r2.dm.current_state_name with
      | some st =>
          if st.accepts_message keys then
            let acted := runAccept st
            if acted.2.1 then
              { dm := r2.dm, db := r2.db, sent := [], ran := acted.1,
                crashed := true }
            else
              { dm := r2.dm, db := r2.dm.save_state r2.db, sent := acted.2.2,
                ran := acted.1, crashed := false }
          else
            let r3 := r2.dm.move_to r2.db (MoveTarget.byName "default.root")
                false false
            { dm := r3.dm, db := r3.dm.save_state r3.db, sent := r3.sent,
              ran := r3.ran, crashed := false }
      | none =>
          { dm := r2.dm, db := r2.db, sent := [], ran := [], crashed := true }

/-- Python `process` (dialog_manager.py lines 87-123).  Steps: reject event
types other than message/postback/schedule with no change; increment
the counter; merge the turn's entities; short-circuit on an active
test-record marker (respond, save, return); mark the session active
unless the event is a schedule wake-up; then the transition chain of
lines 110-118 — explicit `_state` override, else intent transition,
else in-place acceptance when the current state accepts a newly arrived
entity key, else the fallback `move_by_entities`, which is
`move_to('default.root')` (line 83), followed by `save_state`.
The `processing_start` and `processing_end` interface notifications and
the final analytics logging carry no engine state and are dropped. -/
def DialogManager.process (dm : DialogManager) (db : DB) (message_type : String)
    (entities : List (String × String)) : ProcRes :=
  if !(message_type == "message" || message_type == "postback"
        || message_type == "schedule") then
    { dm := dm, db := db, sent := [], ran := [], crashed := false }
  else
    let dm1 : DialogManager := { dm with context := dm.turn_context entities }
    if test_record_active dm1.context then
      { dm := dm1, db := dm1.save_state db,
        sent := [test_record_response dm1.context], ran := [], crashed := false }
    else
      let db0 := if message_type == "schedule" then db else dm1.save_inactivity db
      resolverChain dm1 db0 (entities.map Prod.fst)

/-- A fresh manager for a new session (dialog_manager.py lines 52-57
together with `init_flows` at lines 59-62): empty Context, current
state `default.root`. -/
def freshDialogManager (flows : List Flow) (chat_id iface err : String) :
    DialogManager :=
  { flows := flows, current_state_name := "default.root",
    context := Context.empty, chat_id := chat_id, interface_name := iface,
    error_message_text := err }

/-- Python `__init__` (dialog_manager.py lines 25-57).  The persisted session
is restored only when the stored `dialog_version` equals the engine
version and a context blob exists for the chat id; otherwise a fresh
session is created.  On restore the stored state name goes through
`move_to(state, initializing=True)`: name resolution against the just
initialised `default.root` pointer, staying at `default.root` when the
stored state no longer exists; the action block and the history append
are skipped and `save_state` is a no-op because `self.context` is still
`None`, so that call path is inlined here.  The result is `none` for
the uncaught exception python raises when the context blob exists but
the state entry is missing (`None.decode`). -/
def dm_init (flows : List Flow) (chat_id iface err : String) (db : DB) :
    Option DialogManager :=
  let base := freshDialogManager flows chat_id iface err
  if db.dialog_version == some dialogVersion
      && (hget db.session_context chat_id).isSome then
    match hget db.session_state chat_id, hget db.session_context chat_id with
    | some st, some ctx =>
        let name := resolve_name base.current_state_name st
        let cur := if (base.get_state name).isSome then name
                   else base.current_state_name
        some { base with current_state_name := cur, context := ctx }
    | _, _ => none
  else
    some base

/-! Concrete fixtures used to evaluate the definitions at witness and
counterexample inputs: a small flow registry with a default flow, an
intent-handling `orders` flow and a `billing` flow exercising entity
acceptance, requirements and raising actions. -/

/-- Action of the default flow root. -/
def actRoot : Action := { id := "root", raises := false, msgs := ["hi"] }

/-- Action of the orders flow root. -/
def actOrders : Action := { id := "orders", raises := false, msgs := ["orders"] }

/-- Action of `billing.collect`. -/
def actCollect : Action := { id := "collect", raises := false, msgs := ["amount?"] }

/-- Action of `billing.gate`, gated behind a requirement. -/
def actGate : Action := { id := "gate", raises := false, msgs := ["gate"] }

/-- Remediation action of the unmet requirement of `billing.gate`. -/
def actNeed : Action := { id := "need", raises := false, msgs := ["need data"] }

/-- An action that raises. -/
def actBoom : Action := { id := "boom", raises := true, msgs := [] }

/-- A requirement that is never satisfied. -/
def reqNever : Requirement := { cond := fun _ => false, action := actNeed }

/-- A requirement satisfied when the `amount` entity is present. -/
def reqAmount : Requirement :=
  { cond := fun c => (c.getAny "amount").isSome, action := actNeed }

/-- The root state of the default and billing flows. -/
def rootState : State :=
  { name := "root", action := some actRoot, requirements := [],
    accepts := [], intent := none }

/-- The `default.over` state. -/
def overState : State :=
  { name := "over", action := some actOrders, requirements := [],
    accepts := [], intent := none }

/-- The `orders.root` state. -/
def ordersRootState : State :=
  { name := "root", action := some actOrders, requirements := [],
    accepts := [], intent := none }

/-- The `billing.collect` state: accepts the `amount` entity and
requires it. -/
def collectState : State :=
  { name := "collect", action := some actCollect,
    requirements := [reqAmount], accepts := ["amount"], intent := none }

/-- The `billing.gate` state: gated behind a never-satisfied
requirement. -/
def gateState : State :=
  { name := "gate", action := some actGate, requirements := [reqNever],
    accepts := [], intent := none }

/-- The `billing.pick` state: accepts the `color` entity while gated
behind a never-satisfied requirement. -/
def pickState : State :=
  { name := "pick", action := some actGate, requirements := [reqNever],
    accepts := ["color"], intent := none }

/-- The `billing.boom` state, whose action raises. -/
def boomState : State :=
  { name := "boom", action := some actBoom, requirements := [],
    accepts := [], intent := none }

/-- The default flow of the fixture registry. -/
def defaultFlow : Flow :=
  { name := "default",
    states := [("root", rootState), ("over", overState)],
    intents := [] }

/-- The orders flow, declaring the `cancel` intent. -/
def ordersFlow : Flow :=
  { name := "orders",
    states := [("root", ordersRootState)],
    intents := ["cancel"] }

/-- The billing flow: a root, entity-accepting states, a
requirement-gated state and a raising state. -/
def billingFlow : Flow :=
  { name := "billing",
    states := [("root", rootState), ("collect", collectState),
      ("gate", gateState), ("pick", pickState), ("boom", boomState)],
    intents := [] }

/-- The fixture registry. -/
def sampleFlows : List Flow := [defaultFlow, ordersFlow, billingFlow]

/-- A fixture manager at the given state with the given Context. -/
def mkDM (cur : String) (ctx : Context) : DialogManager :=
  { flows := sampleFlows, current_state_name := cur, context := ctx,
    chat_id := "fb_1", interface_name := "facebook",
    error_message_text := "Oh no! You broke me! :(" }

/-- The requirement-gated action selection of `move_to`
(dialog_manager.py lines 269-273), as a function of the entered state
and the Context: the state's own action when every requirement holds,
else the first unmet requirement's remediation action. -/
def gated (st : State) (c : Context) : List Action × Bool × List String :=
  if st.check_requirements c then runAccept st
  else
    match st.get_first_requirement c with
    | some req => execAction req.action
    | none => ([], false, [])

/-! Helper lemmas about `move_to` and the two transition checks. -/

/-- Replacing the Context does not change state lookup. -/
@[simp]
theorem get_state_set_context (dm : DialogManager) (c : Context) (n : String) :
    DialogManager.get_state { dm with context := c } n = dm.get_state n := rfl

/-- Replacing the Context does not change the session identity. -/
@[simp]
theorem chat_id_set_context (dm : DialogManager) (c : Context) :
    DialogManager.chat_id { dm with context := c } = dm.chat_id := rfl

/-- Lemma: `move_to` on a state name that resolves to a state missing from the
registry: nothing changes and the move reports failure
(dialog_manager.py lines 245-247). -/
theorem move_to_missing (dm : DialogManager) (db : DB) (s n : String) (i sv : Bool)
    (hres : resolve_name dm.current_state_name s = n)
    (hst : dm.get_state n = none) :
    dm.move_to db (MoveTarget.byName s) i sv =
      { dm := dm, db := db, sent := [], ran := [],
        log := ["Error: State does not exist", n], ok := false } := by
  simp only [DialogManager.move_to, DialogManager.resolve_raw, Option.getD_some,
    hres, hst]

/-- Lemma: `move_to` on a name that resolves to the current state, without
forced re-entry: nothing changes and the move reports no transition
(dialog_manager.py lines 248-252). -/
theorem move_to_identical (dm : DialogManager) (db : DB) (s : String) (i : Bool)
    (hres : resolve_name dm.current_state_name s = dm.current_state_name) :
    (dm.move_to db (MoveTarget.byName s) i false).dm = dm ∧
    (dm.move_to db (MoveTarget.byName s) i false).db = db ∧
    (dm.move_to db (MoveTarget.byName s) i false).sent = [] ∧
    (dm.move_to db (MoveTarget.byName s) i false).ran = [] ∧
    (dm.move_to db (MoveTarget.byName s) i false).ok = false := by
  simp only [DialogManager.move_to, DialogManager.resolve_raw, Option.getD_some,
    hres]
  cases hst : dm.get_state dm.current_state_name with
  | none => simp
  | some st => simp

/-- Lemma: `move_to` with no target (`move_to(None)`): the target falls back to
the current state, and when the current name resolves to itself nothing
changes and the move reports no transition. -/
theorem move_to_noTarget (dm : DialogManager) (db : DB)
    (hres : resolve_name dm.current_state_name dm.current_state_name =
      dm.current_state_name) :
    (dm.move_to db MoveTarget.noTarget false false).dm = dm ∧
    (dm.move_to db MoveTarget.noTarget false false).db = db ∧
    (dm.move_to db MoveTarget.noTarget false false).sent = [] ∧
    (dm.move_to db MoveTarget.noTarget false false).ran = [] ∧
    (dm.move_to db MoveTarget.noTarget false false).ok = false := by
  simp only [DialogManager.move_to, DialogManager.resolve_raw, Option.getD_none,
    hres]
  cases hst : dm.get_state dm.current_state_name with
  | none => simp
  | some st => simp

/-- Lemma: `move_to` into an existing, different state: the full result — the
resolved name is appended to the history, the pointer advances, the
requirement-gated action runs under the exception handler, and the new
state is persisted (dialog_manager.py lines 248-289). -/
theorem move_to_success (dm : DialogManager) (db : DB) (s n : String)
    (st : State) (sv : Bool)
    (hres : resolve_name dm.current_state_name s = n)
    (hst : dm.get_state n = some st)
    (hne : n ≠ dm.current_state_name) :
    dm.move_to db (MoveTarget.byName s) false sv =
      (let dm2 : DialogManager :=
        { dm with current_state_name := n, context := dm.context.add_state n }
       let acted := gated st dm2.context
       { dm := dm2, db := dm2.save_state db,
         sent := if acted.2.1 then [dm.error_message_text] else acted.2.2,
         ran := acted.1,
         log := if acted.2.1 then
             ["Exception occurred while running action", dm.current_state_name,
               n, dm.chat_id] ++
               (if dm2.context.debug_raises then [] else ["Context snapshot"])
           else [],
         ok := true }) := by
  have hbeq : (n == dm.current_state_name) = false := by
    simpa using hne
  have hbeq2 : (dm.current_state_name == n) = false := by
    simpa using (Ne.symm hne)
  simp only [DialogManager.move_to, DialogManager.resolve_raw, Option.getD_some,
    hres, hst, hbeq, hbeq2]
  simp [gated]

/-- Lemma: `check_state_transition` when the `_state` entity is absent at age 0:
no transition, nothing changes. -/
theorem cst_absent (dm : DialogManager) (db : DB)
    (h : dm.context.get "_state" 0 = none)
    (hres : resolve_name dm.current_state_name dm.current_state_name =
      dm.current_state_name) :
    (dm.check_state_transition db).dm = dm ∧
    (dm.check_state_transition db).db = db ∧
    (dm.check_state_transition db).sent = [] ∧
    (dm.check_state_transition db).ran = [] ∧
    (dm.check_state_transition db).ok = false := by
  simp only [DialogManager.check_state_transition, h]
  exact move_to_noTarget dm db hres

/-- Lemma: `check_intent_transition` when no intent entity is present: no
transition, nothing changes. -/
theorem cit_absent (dm : DialogManager) (db : DB)
    (h : dm.context.getAny "intent" = none) :
    dm.check_intent_transition db =
      { dm := dm, db := db, sent := [], ran := [], log := [], ok := false } := by
  simp only [DialogManager.check_intent_transition, h]

/-- Lemma: `hget` after `hset` at the same key. -/
@[simp]
theorem hget_hset_self {α : Type} (l : List (String × α)) (k : String) (v : α) :
    hget (hset l k v) k = some v := by
  simp [hget, hset]

/-- The counter after the turn's entity merge. -/
@[simp]
theorem turn_context_counter (dm : DialogManager)
    (ents : List (String × String)) :
    (dm.turn_context ents).counter = dm.context.counter + 1 := rfl

/-- The entity merge does not touch the history. -/
@[simp]
theorem turn_context_history (dm : DialogManager)
    (ents : List (String × String)) :
    (dm.turn_context ents).history = dm.context.history := rfl

/-- Lemma: `add_state` does not touch the counter. -/
@[simp]
theorem add_state_counter (c : Context) (n : String) :
    (c.add_state n).counter = c.counter := rfl

/-- Lemma: `move_to` never changes the turn counter. -/
theorem move_to_counter (dm : DialogManager) (db : DB) (target : MoveTarget)
    (i sv : Bool) :
    (dm.move_to db target i sv).dm.context.counter = dm.context.counter := by
  simp only [DialogManager.move_to, Context.add_state]
  repeat' split
  all_goals rfl

/-- Lemma: `check_state_transition` never changes the turn counter. -/
theorem cst_counter (dm : DialogManager) (db : DB) :
    (dm.check_state_transition db).dm.context.counter = dm.context.counter := by
  simp only [DialogManager.check_state_transition]
  split <;> exact move_to_counter ..

/-- Lemma: `check_intent_transition` never changes the turn counter. -/
theorem cit_counter (dm : DialogManager) (db : DB) :
    (dm.check_intent_transition db).dm.context.counter = dm.context.counter := by
  simp only [DialogManager.check_intent_transition]
  split
  · rfl
  · split
    · rfl
    · exact move_to_counter ..

/-- The transition chain never changes the turn counter. -/
theorem resolverChain_counter (dm : DialogManager) (db : DB)
    (keys : List String) :
    (resolverChain dm db keys).dm.context.counter = dm.context.counter := by
  have h1 := cst_counter dm db
  have h2 := cit_counter (dm.check_state_transition db).dm
    (dm.check_state_transition db).db
  have h3 := move_to_counter
    ((dm.check_state_transition db).dm.check_intent_transition
      (dm.check_state_transition db).db).dm
    ((dm.check_state_transition db).dm.check_intent_transition
      (dm.check_state_transition db).db).db
    (MoveTarget.byName "default.root") false false
  simp only [resolverChain]
  repeat' split
  all_goals simp only [h3, h2, h1]

/-- Under an accepted event type with no active test-record marker,
`process` is the counter increment and entity merge followed by the
transition chain on the newly arrived entity keys. -/
theorem process_chain (dm : DialogManager) (db : DB) (t : String)
    (ents : List (String × String))
    (ht : t = "message" ∨ t = "postback" ∨ t = "schedule")
    (htr : test_record_active (dm.turn_context ents) = false) :
    dm.process db t ents =
      resolverChain { dm with context := dm.turn_context ents }
        (if t == "schedule" then db
          else DialogManager.save_inactivity
            { dm with context := dm.turn_context ents } db)
        (ents.map Prod.fst) := by
  rcases ht with h | h | h <;> subst h <;>
    simp [DialogManager.process, htr]

/-- The chain when the `_state` override resolves to an existing state
different from the current one: the override move is the whole result
and the later rules are not consulted. -/
theorem chain_override (dm : DialogManager) (db : DB) (keys : List String)
    (s n : String) (st : State)
    (hstate : dm.context.get "_state" 0 = some s)
    (hres : resolve_name dm.current_state_name s = n)
    (hst : dm.get_state n = some st)
    (hne : n ≠ dm.current_state_name) :
    resolverChain dm db keys =
      { dm := (dm.move_to db (MoveTarget.byName s) false false).dm,
        db := (dm.move_to db (MoveTarget.byName s) false false).db,
        sent := (dm.move_to db (MoveTarget.byName s) false false).sent,
        ran := (dm.move_to db (MoveTarget.byName s) false false).ran,
        crashed := false } := by
  have hm := move_to_success dm db s n st false hres hst hne
  simp only [resolverChain, DialogManager.check_state_transition, hstate, hm]
  simp

/-- The chain when neither the override nor an intent fires and the
current state accepts one of the newly arrived entity keys: the current
state's action is re-run in place, with no state change and outside any
exception handler. -/
theorem chain_acceptance (dm : DialogManager) (db : DB) (keys : List String)
    (st : State)
    (hstate : dm.context.get "_state" 0 = none)
    (hwf : resolve_name dm.current_state_name dm.current_state_name =
      dm.current_state_name)
    (hintent : dm.context.getAny "intent" = none)
    (hcur : dm.get_state dm.current_state_name = some st)
    (hacc : st.accepts_message keys = true) :
    resolverChain dm db keys =
      (if (runAccept st).2.1 then
        { dm := dm, db := db, sent := [], ran := (runAccept st).1,
          crashed := true }
      else
        { dm := dm, db := dm.save_state db, sent := (runAccept st).2.2,
          ran := (runAccept st).1, crashed := false }) := by
  obtain ⟨a1, a2, a3, a4, a5⟩ := cst_absent dm db hstate hwf
  simp only [resolverChain, a1, a2, a5]
  rw [cit_absent dm db hintent]
  simp [hcur, hacc]

/-- The chain when no rule before the fallback fires: the fallback is
`move_to('default.root')` followed by `save_state`. -/
theorem chain_fallback (dm : DialogManager) (db : DB) (keys : List String)
    (st : State)
    (hstate : dm.context.get "_state" 0 = none)
    (hwf : resolve_name dm.current_state_name dm.current_state_name =
      dm.current_state_name)
    (hintent : dm.context.getAny "intent" = none)
    (hcur : dm.get_state dm.current_state_name = some st)
    (hacc : st.accepts_message keys = false) :
    resolverChain dm db keys =
      { dm := (dm.move_to db (MoveTarget.byName "default.root") false false).dm,
        db := (dm.move_to db (MoveTarget.byName "default.root") false
            false).dm.save_state
          (dm.move_to db (MoveTarget.byName "default.root") false false).db,
        sent := (dm.move_to db (MoveTarget.byName "default.root") false false).sent,
        ran := (dm.move_to db (MoveTarget.byName "default.root") false false).ran,
        crashed := false } := by
  obtain ⟨a1, a2, a3, a4, a5⟩ := cst_absent dm db hstate hwf
  simp only [resolverChain, a1, a2, a5]
  rw [cit_absent dm db hintent]
  simp [hcur, hacc]

/-- The trace of `run_accept` is the state's own action, when present. -/
@[simp]
theorem runAccept_ran (st : State) : (runAccept st).1 = st.action.toList := by
  cases h : st.action <;> simp [runAccept, execAction, h]

/-- Lemma: `move_to` never changes the session identity. -/
theorem move_to_chat_id (dm : DialogManager) (db : DB) (target : MoveTarget)
    (i sv : Bool) :
    (dm.move_to db target i sv).dm.chat_id = dm.chat_id := by
  simp only [DialogManager.move_to]
  repeat' split
  all_goals rfl

/-- When some requirement is unmet, a first unmet requirement exists. -/
theorem first_unmet_exists (st : State) (c : Context)
    (h : st.check_requirements c = false) :
    ∃ r, st.get_first_requirement c = some r := by
  unfold State.check_requirements at h
  unfold State.get_first_requirement
  rw [List.all_eq_false] at h
  obtain ⟨r, hr, hcond⟩ := h
  have : (st.requirements.find? (fun r => !(r.cond c))).isSome := by
    rw [List.find?_isSome]
    exact ⟨r, hr, by simpa using hcond⟩
  exact Option.isSome_iff_exists.mp this

/-! The claims. -/

/-- C6: for every call to `move_to` whose resolved target state name
does not exist in the Flow Registry, `move_to` returns failure, the
manager (current-state pointer and history included) and the store are
unchanged, no action is run and nothing is sent: the session continues
at the prior state. -/
theorem c6_missing_target_is_noop (dm : DialogManager) (db : DB) (s n : String)
    (hres : resolve_name dm.current_state_name s = n)
    (hst : dm.get_state n = none) :
    (dm.move_to db (MoveTarget.byName s) false false).ok = false ∧
    (dm.move_to db (MoveTarget.byName s) false false).dm = dm ∧
    (dm.move_to db (MoveTarget.byName s) false false).db = db ∧
    (dm.move_to db (MoveTarget.byName s) false false).ran = [] ∧
    (dm.move_to db (MoveTarget.byName s) false false).sent = [] := by
  rw [move_to_missing dm db s n false false hres hst]
  exact ⟨rfl, rfl, rfl, rfl, rfl⟩

/-- Witness for C6 at a concrete input: moving to the unknown state
`nosuch` from `default.root` fails and changes nothing. -/
theorem c6_missing_target_is_noop_witness :
    resolve_name "default.root" "nosuch" = "default.nosuch" ∧
    (mkDM "default.root" Context.empty).get_state "default.nosuch" = none ∧
    ((mkDM "default.root" Context.empty).move_to DB.empty
      (MoveTarget.byName "nosuch") false false).ok = false ∧
    ((mkDM "default.root" Context.empty).move_to DB.empty
      (MoveTarget.byName "nosuch") false false).dm =
      mkDM "default.root" Context.empty := by
  refine ⟨rfl, rfl, ?_, ?_⟩
  · exact (c6_missing_target_is_noop (mkDM "default.root" Context.empty)
      DB.empty "nosuch" "default.nosuch" rfl rfl).1
  · exact (c6_missing_target_is_noop (mkDM "default.root" Context.empty)
      DB.empty "nosuch" "default.nosuch" rfl rfl).2.1

/-- C9: `move_to` with an integer argument `N` resolves through the
history with offset `N - 1` (the entry `N` places from the end of the
history, the most recent entry being place 1): when the lookup yields
an entry the call behaves exactly as a move to that entry's name, and
when the lookup yields nothing the call is a no-op on the current
state. -/
theorem c9_back_navigation (dm : DialogManager) (db : DB) (n : Int) :
    (∀ r, dm.context.get_history_state (n - 1) = some r →
      dm.move_to db (MoveTarget.back n) false false =
        dm.move_to db (MoveTarget.byName r) false false) ∧
    (dm.context.get_history_state (n - 1) = none →
      resolve_name dm.current_state_name dm.current_state_name =
        dm.current_state_name →
      (dm.move_to db (MoveTarget.back n) false false).dm = dm ∧
      (dm.move_to db (MoveTarget.back n) false false).db = db ∧
      (dm.move_to db (MoveTarget.back n) false false).ok = false) := by
  constructor
  · intro r h
    simp only [DialogManager.move_to, DialogManager.resolve_raw, h,
      Option.getD_some]
  · intro h hwf
    simp only [DialogManager.move_to, DialogManager.resolve_raw, h,
      Option.getD_none, hwf]
    cases hst : dm.get_state dm.current_state_name with
    | none => simp
    | some st => simp

/-- Witness for C9 at the spec's Scenario D: with history
`[default.root, default.over, billing.root]` and current state
`billing.root`, `move_to(2)` resolves one step back from the current
entry, to `default.over`; and with an empty history the lookup yields
nothing and the call is a no-op. -/
theorem c9_back_navigation_witness :
    ((mkDM "billing.root"
        { Context.empty with
          history := ["default.root", "default.over", "billing.root"]
        }).context.get_history_state (2 - 1) = some "default.over") ∧
    ((mkDM "billing.root"
        { Context.empty with
          history := ["default.root", "default.over", "billing.root"]
        }).move_to DB.empty (MoveTarget.back 2) false false =
      (mkDM "billing.root"
        { Context.empty with
          history := ["default.root", "default.over", "billing.root"]
        }).move_to DB.empty (MoveTarget.byName "default.over") false false) ∧
    ((mkDM "billing.root"
        { Context.empty with
          history := ["default.root", "default.over", "billing.root"]
        }).move_to DB.empty (MoveTarget.back 2) false
        false).dm.current_state_name = "default.over" ∧
    ((mkDM "default.root" Context.empty).context.get_history_state (2 - 1) =
      none) ∧
    ((mkDM "default.root" Context.empty).move_to DB.empty (MoveTarget.back 2)
        false false).dm = mkDM "default.root" Context.empty := by
  refine ⟨rfl, ?_, by rfl, rfl, ?_⟩
  · exact (c9_back_navigation (mkDM "billing.root"
      { Context.empty with
        history := ["default.root", "default.over", "billing.root"] })
      DB.empty 2).1 "default.over" rfl
  · exact ((c9_back_navigation (mkDM "default.root" Context.empty)
      DB.empty 2).2 rfl rfl).1

/-- C7: a `move_to` whose resolved target equals the current state,
with no forced re-entry, appends no history entry and reports no
transition; consequently a processed turn that triggers only an
in-place acceptance leaves the history (hence its length) unchanged. -/
theorem c7_identical_move_keeps_history :
    (∀ (dm : DialogManager) (db : DB) (s : String),
      resolve_name dm.current_state_name s = dm.current_state_name →
      (dm.move_to db (MoveTarget.byName s) false false).ok = false ∧
      (dm.move_to db (MoveTarget.byName s) false false).dm = dm ∧
      (dm.move_to db (MoveTarget.byName s) false false).db = db) ∧
    (∀ (dm : DialogManager) (db : DB) (t : String)
      (ents : List (String × String)) (st : State),
      (t = "message" ∨ t = "postback" ∨ t = "schedule") →
      test_record_active (dm.turn_context ents) = false →
      (dm.turn_context ents).get "_state" 0 = none →
      resolve_name dm.current_state_name dm.current_state_name =
        dm.current_state_name →
      (dm.turn_context ents).getAny "intent" = none →
      dm.get_state dm.current_state_name = some st →
      st.accepts_message (ents.map Prod.fst) = true →
      (dm.process db t ents).dm.context.history = dm.context.history) := by
  constructor
  · intro dm db s hres
    obtain ⟨h1, h2, h3, h4, h5⟩ := move_to_identical dm db s false hres
    exact ⟨h5, h1, h2⟩
  · intro dm db t ents st ht htr hstate hwf hintent hcur hacc
    rw [process_chain dm db t ents ht htr]
    rw [chain_acceptance { dm with context := dm.turn_context ents }
      (if t == "schedule" then db
        else DialogManager.save_inactivity
          { dm with context := dm.turn_context ents } db)
      (ents.map Prod.fst) st hstate hwf hintent hcur hacc]
    split <;> simp

/-- Witness for C7: an identical `move_to` from `billing.collect` is a
no-op, and the acceptance turn of the spec's Scenario B (state
`billing.collect` accepting entity `amount`) leaves the history
unchanged. -/
theorem c7_identical_move_keeps_history_witness :
    resolve_name "billing.collect" "collect" = "billing.collect" ∧
    ((mkDM "billing.collect" Context.empty).move_to DB.empty
      (MoveTarget.byName "collect") false false).ok = false ∧
    ((mkDM "billing.collect" Context.empty).process DB.empty "message"
      [("amount", "42")]).dm.context.history = [] := by
  refine ⟨rfl, ?_, ?_⟩
  · exact ((c7_identical_move_keeps_history.1
      (mkDM "billing.collect" Context.empty) DB.empty "collect") rfl).1
  · exact (c7_identical_move_keeps_history.2
      (mkDM "billing.collect" Context.empty) DB.empty "message"
      [("amount", "42")] collectState (Or.inl rfl) rfl rfl rfl rfl rfl rfl)

/-- C10: when the in-place acceptance path fires, the state's own
action is re-run unconditionally — the result does not consult the
state's requirements (the manager here has arbitrary requirements on
the current state, and the trace is its own action regardless) — and
there is no state change; requirement evaluation happens only inside
`move_to` (theorem for C4) and only on its non-identical path. -/
theorem c10_acceptance_runs_own_action (dm : DialogManager) (db : DB)
    (t : String) (ents : List (String × String)) (st : State)
    (ht : t = "message" ∨ t = "postback" ∨ t = "schedule")
    (htr : test_record_active (dm.turn_context ents) = false)
    (hstate : (dm.turn_context ents).get "_state" 0 = none)
    (hwf : resolve_name dm.current_state_name dm.current_state_name =
      dm.current_state_name)
    (hintent : (dm.turn_context ents).getAny "intent" = none)
    (hcur : dm.get_state dm.current_state_name = some st)
    (hacc : st.accepts_message (ents.map Prod.fst) = true) :
    (dm.process db t ents).dm.current_state_name = dm.current_state_name ∧
    (dm.process db t ents).ran = st.action.toList := by
  rw [process_chain dm db t ents ht htr]
  rw [chain_acceptance { dm with context := dm.turn_context ents }
    (if t == "schedule" then db
      else DialogManager.save_inactivity
        { dm with context := dm.turn_context ents } db)
    (ents.map Prod.fst) st hstate hwf hintent hcur hacc]
  split <;> simp

/-- Witness for C10: the `billing.pick` state has an unmet requirement,
yet the acceptance turn on its accepted entity `color` runs its own
action (not the remediation action) and stays in place. -/
theorem c10_acceptance_runs_own_action_witness :
    pickState.check_requirements
      ((mkDM "billing.pick" Context.empty).turn_context [("color", "red")]) =
      false ∧
    ((mkDM "billing.pick" Context.empty).process DB.empty "message"
      [("color", "red")]).dm.current_state_name = "billing.pick" ∧
    ((mkDM "billing.pick" Context.empty).process DB.empty "message"
      [("color", "red")]).ran = pickState.action.toList := by
  refine ⟨rfl, ?_, ?_⟩
  · exact (c10_acceptance_runs_own_action (mkDM "billing.pick" Context.empty)
      DB.empty "message" [("color", "red")] pickState (Or.inl rfl) rfl rfl rfl
      rfl rfl rfl).1
  · exact (c10_acceptance_runs_own_action (mkDM "billing.pick" Context.empty)
      DB.empty "message" [("color", "red")] pickState (Or.inl rfl) rfl rfl rfl
      rfl rfl rfl).2

/-- C4: a transition into a state runs the state's own action exactly
when all of its requirements are satisfied, and otherwise runs the
remediation action of the first unmet requirement in declared order —
the state's own action is not invoked in that case. -/
theorem c4_requirement_gating (dm : DialogManager) (db : DB) (s n : String)
    (st : State)
    (hres : resolve_name dm.current_state_name s = n)
    (hst : dm.get_state n = some st)
    (hne : n ≠ dm.current_state_name) :
    ((dm.move_to db (MoveTarget.byName s) false false).ran =
      (if st.check_requirements (dm.context.add_state n) then st.action.toList
       else ((st.get_first_requirement (dm.context.add_state n)).map
          (fun r => r.action)).toList)) ∧
    (st.check_requirements (dm.context.add_state n) = false →
      ∃ r, st.get_first_requirement (dm.context.add_state n) = some r ∧
        (dm.move_to db (MoveTarget.byName s) false false).ran = [r.action]) := by
  have hm := move_to_success dm db s n st false hres hst hne
  have hran : (dm.move_to db (MoveTarget.byName s) false false).ran =
      (if st.check_requirements (dm.context.add_state n) then st.action.toList
       else ((st.get_first_requirement (dm.context.add_state n)).map
          (fun r => r.action)).toList) := by
    rw [hm]
    simp only [gated]
    cases hck : st.check_requirements (dm.context.add_state n) with
    | true => simp [hck]
    | false =>
        cases hfr : st.get_first_requirement (dm.context.add_state n) with
        | none => simp [hck, hfr]
        | some r => simp [hck, hfr, execAction]
  refine ⟨hran, ?_⟩
  intro hck
  obtain ⟨r, hr⟩ := first_unmet_exists st (dm.context.add_state n) hck
  exact ⟨r, hr, by rw [hran, if_neg (by simp [hck]), hr]; rfl⟩

/-- Witness for C4: moving into `billing.gate` (unmet requirement) runs
the remediation action `actNeed` and not the state's own action, while
moving into `default.over` (no requirements) runs its own action. -/
theorem c4_requirement_gating_witness :
    gateState.check_requirements
      ((Context.empty).add_state "billing.gate") = false ∧
    ((mkDM "default.root" Context.empty).move_to DB.empty
      (MoveTarget.byName "billing.gate") false false).ran = [actNeed] ∧
    ((mkDM "default.root" Context.empty).move_to DB.empty
      (MoveTarget.byName "default.over") false false).ran = [actOrders] := by
  refine ⟨rfl, ?_, ?_⟩
  · rw [(c4_requirement_gating (mkDM "default.root" Context.empty) DB.empty
      "billing.gate" "billing.gate" gateState rfl rfl (by decide)).1]
    rfl
  · rw [(c4_requirement_gating (mkDM "default.root" Context.empty) DB.empty
      "default.over" "default.over" overState rfl rfl (by decide)).1]
    rfl

/-- C2: when the requirement-gated action of the entered state raises,
`move_to` contains the failure: it still returns success, sends exactly
the one fixed apology message, leaves the pointer advanced to the
target state (no rollback), persists that state, and logs the previous
state, the new state and the session id.  The manager is arbitrary
here, in particular its `debug_raises` flag may be set, so the
conclusions hold also when computing the diagnostic Context snapshot
itself fails: that failure is swallowed and cannot mask the original
error (the witness instantiates this with `debug_raises = true`). -/
theorem c2_action_error_contained (dm : DialogManager) (db : DB) (s n : String)
    (st : State)
    (hres : resolve_name dm.current_state_name s = n)
    (hst : dm.get_state n = some st)
    (hne : n ≠ dm.current_state_name)
    (hraise : (gated st (dm.context.add_state n)).2.1 = true) :
    (dm.move_to db (MoveTarget.byName s) false false).ok = true ∧
    (dm.move_to db (MoveTarget.byName s) false false).sent =
      [dm.error_message_text] ∧
    (dm.move_to db (MoveTarget.byName s) false false).dm.current_state_name =
      n ∧
    hget (dm.move_to db (MoveTarget.byName s) false
        false).db.session_state dm.chat_id = some n ∧
    dm.current_state_name ∈ (dm.move_to db (MoveTarget.byName s) false
      false).log ∧
    n ∈ (dm.move_to db (MoveTarget.byName s) false false).log ∧
    dm.chat_id ∈ (dm.move_to db (MoveTarget.byName s) false false).log := by
  have hm := move_to_success dm db s n st false hres hst hne
  rw [hm]
  refine ⟨rfl, by simp [hraise], rfl, by simp [DialogManager.save_state], ?_, ?_, ?_⟩
  · simp [hraise]
  · simp [hraise]
  · simp only [hraise]
    split <;> simp_all

/-- Witness for C2: moving into `billing.boom` (raising action) from a
session whose Context snapshot also raises still succeeds, sends the
single apology, advances to `billing.boom` and persists it. -/
theorem c2_action_error_contained_witness :
    (gated boomState
      (({ Context.empty with debug_raises := true } : Context).add_state
        "billing.boom")).2.1 = true ∧
    ((mkDM "default.root" { Context.empty with debug_raises := true }).move_to
      DB.empty (MoveTarget.byName "billing.boom") false false).ok = true ∧
    ((mkDM "default.root" { Context.empty with debug_raises := true }).move_to
      DB.empty (MoveTarget.byName "billing.boom") false false).sent =
      ["Oh no! You broke me! :("] ∧
    ((mkDM "default.root" { Context.empty with debug_raises := true }).move_to
      DB.empty (MoveTarget.byName "billing.boom") false
      false).dm.current_state_name = "billing.boom" ∧
    hget ((mkDM "default.root"
        { Context.empty with debug_raises := true }).move_to DB.empty
        (MoveTarget.byName "billing.boom") false false).db.session_state
      "fb_1" = some "billing.boom" := by
  refine ⟨rfl, ?_, ?_, ?_, ?_⟩
  · exact (c2_action_error_contained
      (mkDM "default.root" { Context.empty with debug_raises := true })
      DB.empty "billing.boom" "billing.boom" boomState rfl rfl (by decide)
      rfl).1
  · exact (c2_action_error_contained
      (mkDM "default.root" { Context.empty with debug_raises := true })
      DB.empty "billing.boom" "billing.boom" boomState rfl rfl (by decide)
      rfl).2.1
  · exact (c2_action_error_contained
      (mkDM "default.root" { Context.empty with debug_raises := true })
      DB.empty "billing.boom" "billing.boom" boomState rfl rfl (by decide)
      rfl).2.2.1
  · exact (c2_action_error_contained
      (mkDM "default.root" { Context.empty with debug_raises := true })
      DB.empty "billing.boom" "billing.boom" boomState rfl rfl (by decide)
      rfl).2.2.2.1

/-- C8: an event whose type is not message/postback/schedule is ignored
with the manager (state, counter, entities, history) and the store
entirely unchanged and nothing sent or run; every accepted event type
increments the context counter by exactly 1, on every processing
path. -/
theorem c8_event_gating_and_counter (dm : DialogManager) (db : DB)
    (t : String) (ents : List (String × String)) :
    (¬(t = "message" ∨ t = "postback" ∨ t = "schedule") →
      dm.process db t ents =
        { dm := dm, db := db, sent := [], ran := [], crashed := false }) ∧
    ((t = "message" ∨ t = "postback" ∨ t = "schedule") →
      (dm.process db t ents).dm.context.counter = dm.context.counter + 1) := by
  constructor
  · intro h
    push_neg at h
    obtain ⟨h1, h2, h3⟩ := h
    have hb : (t == "message" || t == "postback" || t == "schedule") = false := by
      simp [h1, h2, h3]
    simp [DialogManager.process, hb]
  · intro ht
    by_cases htr : test_record_active (dm.turn_context ents) = true
    · rcases ht with h | h | h <;> subst h <;>
        simp [DialogManager.process, htr]
    · rw [process_chain dm db t ents ht (by simpa using htr)]
      rw [resolverChain_counter]
      rfl

/-- Witness for C8: a `seen_by` event changes nothing at all, and a
`message` event on a fresh session leaves the counter at exactly 1. -/
theorem c8_event_gating_and_counter_witness :
    ¬("seen_by" = "message" ∨ "seen_by" = "postback" ∨
      "seen_by" = "schedule") ∧
    (mkDM "default.root" Context.empty).process DB.empty "seen_by"
      [("amount", "1")] =
      { dm := mkDM "default.root" Context.empty, db := DB.empty, sent := [],
        ran := [], crashed := false } ∧
    ((mkDM "default.root" Context.empty).process DB.empty "message"
      []).dm.context.counter = 1 := by
  refine ⟨by decide, ?_, ?_⟩
  · exact (c8_event_gating_and_counter (mkDM "default.root" Context.empty)
      DB.empty "seen_by" [("amount", "1")]).1 (by decide)
  · exact (c8_event_gating_and_counter (mkDM "default.root" Context.empty)
      DB.empty "message" []).2 (Or.inl rfl)

/-- C1 as stated fails on the code: here the Context yields a `_state`
entity at max_age 0 (value `nosuch`, which resolves to no existing
state), an intent entity is also present, and the engine does not stop
after the override rule — the intent transition is evaluated and moves
the session to `orders.root`. -/
theorem c1_override_short_circuit_counterexample :
    (((mkDM "default.root" Context.empty).turn_context
        [("_state", "nosuch"), ("intent", "cancel")]).get "_state" 0 =
      some "nosuch") ∧
    ((mkDM "default.root" Context.empty).get_state
      (resolve_name "default.root" "nosuch") = none) ∧
    ((mkDM "default.root" Context.empty).process DB.empty "message"
      [("_state", "nosuch"), ("intent", "cancel")]).dm.current_state_name =
      "orders.root" :=
  ⟨rfl, rfl, rfl⟩

/-- C1 amended: the four rules are evaluated in fixed order with first
match winning, where the explicit-override rule matches when the
`_state` entity at max_age 0 resolves to an existing state different
from the current one; the engine then moves to that state and the later
rules contribute nothing to the result — in particular a matching
override beats an in-place acceptance whose condition also holds (the
current state's accepted entities are unconstrained here).  When the
override move fails (target missing from the registry, or identical to
the current state) evaluation falls through to the intent rule, as the
counterexample exhibits. -/
theorem c1_override_first (dm : DialogManager) (db : DB) (t : String)
    (ents : List (String × String)) (s n : String) (st : State)
    (ht : t = "message" ∨ t = "postback" ∨ t = "schedule")
    (htr : test_record_active (dm.turn_context ents) = false)
    (hstate : (dm.turn_context ents).get "_state" 0 = some s)
    (hres : resolve_name dm.current_state_name s = n)
    (hst : dm.get_state n = some st)
    (hne : n ≠ dm.current_state_name) :
    (dm.process db t ents).dm.current_state_name = n ∧
    (dm.process db t ents).dm.context.history = dm.context.history ++ [n] ∧
    (dm.process db t ents).ran =
      (gated st ((dm.turn_context ents).add_state n)).1 := by
  rw [process_chain dm db t ents ht htr]
  rw [chain_override { dm with context := dm.turn_context ents }
    (if t == "schedule" then db
      else DialogManager.save_inactivity
        { dm with context := dm.turn_context ents } db)
    (ents.map Prod.fst) s n st hstate hres hst hne]
  rw [move_to_success { dm with context := dm.turn_context ents }
    (if t == "schedule" then db
      else DialogManager.save_inactivity
        { dm with context := dm.turn_context ents } db)
    s n st false hres hst hne]
  refine ⟨rfl, ?_, rfl⟩
  simp [Context.add_state]

/-- Witness for C1 (amended): a valid override to `billing.gate` wins
although an intent entity that would move to `orders.root` is present
in the same turn. -/
theorem c1_override_first_witness :
    (((mkDM "default.root" Context.empty).turn_context
        [("_state", "billing.gate"), ("intent", "cancel")]).get "_state" 0 =
      some "billing.gate") ∧
    (((mkDM "default.root" Context.empty).turn_context
        [("_state", "billing.gate"), ("intent", "cancel")]).getAny "intent" =
      some "cancel") ∧
    ((mkDM "default.root" Context.empty).process DB.empty "postback"
      [("_state", "billing.gate"),
        ("intent", "cancel")]).dm.current_state_name = "billing.gate" := by
  refine ⟨rfl, rfl, ?_⟩
  exact (c1_override_first (mkDM "default.root" Context.empty) DB.empty
    "postback" [("_state", "billing.gate"), ("intent", "cancel")]
    "billing.gate" "billing.gate" gateState (Or.inr (Or.inl rfl)) rfl rfl rfl
    rfl (by decide)).1

/-- The fallback branch of the chain always lands on `default.root`
when that state exists: either the session already is there (identical
no-op move, then `save_state`) or it moves there. -/
theorem chain_fallback_lands (dm : DialogManager) (db : DB)
    (keys : List String) (st rootSt : State)
    (hstate : dm.context.get "_state" 0 = none)
    (hwf : resolve_name dm.current_state_name dm.current_state_name =
      dm.current_state_name)
    (hintent : dm.context.getAny "intent" = none)
    (hcur : dm.get_state dm.current_state_name = some st)
    (hacc : st.accepts_message keys = false)
    (hroot : dm.get_state "default.root" = some rootSt) :
    (resolverChain dm db keys).dm.current_state_name = "default.root" ∧
    hget (resolverChain dm db keys).db.session_state dm.chat_id =
      some "default.root" := by
  rw [chain_fallback dm db keys st hstate hwf hintent hcur hacc]
  by_cases hc : dm.current_state_name = "default.root"
  · obtain ⟨h1, h2, _, _, _⟩ := move_to_identical dm db "default.root" false
      (by rw [show resolve_name dm.current_state_name "default.root" =
        "default.root" from rfl, hc])
    constructor
    · simp [h1, hc]
    · simp [h1, h2, DialogManager.save_state, hc]
  · have hm := move_to_success dm db "default.root" "default.root" rootSt
      false rfl hroot (fun he => hc he.symm)
    rw [hm]
    exact ⟨rfl, by simp [DialogManager.save_state]⟩

/-- C3 as stated fails on the code: from state `billing.collect`, with
no override, no intent, and an entity the state does not accept, the
fallback moves the session to `default.root` and not to the current
flow's root `billing.root`, although `billing.root` exists in the
registry. -/
theorem c3_fallback_counterexample :
    (((mkDM "billing.collect" Context.empty).turn_context
        [("foo", "1")]).get "_state" 0 = none) ∧
    (((mkDM "billing.collect" Context.empty).turn_context
        [("foo", "1")]).getAny "intent" = none) ∧
    collectState.accepts_message ["foo"] = false ∧
    (mkDM "billing.collect" Context.empty).get_state "billing.root" =
      some rootState ∧
    ((mkDM "billing.collect" Context.empty).process DB.empty "message"
      [("foo", "1")]).dm.current_state_name = "default.root" ∧
    "default.root" ≠ "billing.root" :=
  ⟨rfl, rfl, rfl, rfl, rfl, by decide⟩

/-- C3 amended: for every processed turn in which no explicit override
fires, no intent transition fires, and the current state does not
accept any of the newly arrived entity keys, the fallback rule moves
the session to `default.root` — the root state of the *default* flow,
regardless of the current flow — and persists it. -/
theorem c3_fallback_moves_to_default_root (dm : DialogManager) (db : DB)
    (t : String) (ents : List (String × String)) (st rootSt : State)
    (ht : t = "message" ∨ t = "postback" ∨ t = "schedule")
    (htr : test_record_active (dm.turn_context ents) = false)
    (hstate : (dm.turn_context ents).get "_state" 0 = none)
    (hwf : resolve_name dm.current_state_name dm.current_state_name =
      dm.current_state_name)
    (hintent : (dm.turn_context ents).getAny "intent" = none)
    (hcur : dm.get_state dm.current_state_name = some st)
    (hacc : st.accepts_message (ents.map Prod.fst) = false)
    (hroot : dm.get_state "default.root" = some rootSt) :
    (dm.process db t ents).dm.current_state_name = "default.root" ∧
    hget (dm.process db t ents).db.session_state dm.chat_id =
      some "default.root" := by
  rw [process_chain dm db t ents ht htr]
  exact chain_fallback_lands { dm with context := dm.turn_context ents }
    (if t == "schedule" then db
      else DialogManager.save_inactivity
        { dm with context := dm.turn_context ents } db)
    (ents.map Prod.fst) st rootSt hstate hwf hintent hcur hacc hroot

/-- Witness for C3 (amended): the counterexample input, via the amended
theorem — from `billing.collect` with an unaccepted entity the session
lands on `default.root` and that state is persisted. -/
theorem c3_fallback_moves_to_default_root_witness :
    collectState.accepts_message ["foo"] = false ∧
    ((mkDM "billing.collect" Context.empty).process DB.empty "message"
      [("foo", "1")]).dm.current_state_name = "default.root" ∧
    hget ((mkDM "billing.collect" Context.empty).process DB.empty "message"
      [("foo", "1")]).db.session_state "fb_1" = some "default.root" := by
  refine ⟨rfl, ?_, ?_⟩
  · exact (c3_fallback_moves_to_default_root
      (mkDM "billing.collect" Context.empty) DB.empty "message" [("foo", "1")]
      collectState rootState (Or.inl rfl) rfl rfl rfl rfl rfl rfl rfl).1
  · exact (c3_fallback_moves_to_default_root
      (mkDM "billing.collect" Context.empty) DB.empty "message" [("foo", "1")]
      collectState rootState (Or.inl rfl) rfl rfl rfl rfl rfl rfl rfl).2

/-- C5: on construction, if the persisted schema-version marker is
absent or differs from the engine version, or no context blob exists
for the chat id, a fresh session is created — empty Context, current
state `default.root` — and no error is raised; the persisted blob is
loaded and the stored state restored exactly when the version matches
and a context blob exists for the chat id. -/
theorem c5_init_version_gating (flows : List Flow) (chat iface err : String)
    (db : DB) :
    ((db.dialog_version ≠ some dialogVersion ∨
        hget db.session_context chat = none) →
      dm_init flows chat iface err db =
        some (freshDialogManager flows chat iface err)) ∧
    (freshDialogManager flows chat iface err).current_state_name =
      "default.root" ∧
    (freshDialogManager flows chat iface err).context = Context.empty ∧
    (∀ (st : String) (c : Context) (n : String) (stt : State),
      db.dialog_version = some dialogVersion →
      hget db.session_context chat = some c →
      hget db.session_state chat = some st →
      resolve_name "default.root" st = n →
      (freshDialogManager flows chat iface err).get_state n = some stt →
      dm_init flows chat iface err db =
        some { freshDialogManager flows chat iface err with
               current_state_name := n, context := c }) := by
  refine ⟨?_, rfl, rfl, ?_⟩
  · intro h
    have hb : (db.dialog_version == some dialogVersion &&
        (hget db.session_context chat).isSome) = false := by
      rcases h with h | h
      · simp [h]
      · simp [h]
    simp [dm_init, hb]
  · intro st c n stt hv hc hs hres hst
    simp only [dm_init, hv, hc, hs, freshDialogManager] at hst ⊢
    simp [hres, hst]

/-- Witness for C5: the empty store (no version marker) gives a fresh
session, and a store written by `save_state` from a session at
`billing.gate` is restored to `billing.gate` with its saved Context. -/
theorem c5_init_version_gating_witness :
    (DB.empty.dialog_version ≠ some dialogVersion ∨
      hget DB.empty.session_context "fb_1" = none) ∧
    dm_init sampleFlows "fb_1" "facebook" "err" DB.empty =
      some (freshDialogManager sampleFlows "fb_1" "facebook" "err") ∧
    dm_init sampleFlows "fb_1" "facebook" "err"
      ((mkDM "billing.gate" Context.empty).save_state DB.empty) =
      some { freshDialogManager sampleFlows "fb_1" "facebook" "err" with
             current_state_name := "billing.gate",
             context := Context.empty } := by
  refine ⟨Or.inr rfl, ?_, ?_⟩
  · exact (c5_init_version_gating sampleFlows "fb_1" "facebook" "err"
      DB.empty).1 (Or.inr rfl)
  · exact (c5_init_version_gating sampleFlows "fb_1" "facebook" "err"
      ((mkDM "billing.gate" Context.empty).save_state DB.empty)).2.2.2
      "billing.gate" Context.empty "billing.gate" gateState rfl rfl rfl rfl rfl

end Golem
